import Mathlib

/-!
# Verification of the `simpads` simulator core (`src/lib/simulation.js`)

Shallow embedding of the Air Defense simulator: datagram translation,
hostile-entity detection, engagement-success calculation, the seeded
pseudo-random generator, per-time-step simulation and full-run
orchestration.  JavaScript numbers are modelled as elements of a linear
ordered field (`ℚ` for executable instances, `ℝ` for the default
`Math.sin`-based generator); machine strings are modelled as `String` /
`List Char`.
-/

/-- Embedding of `seedRandom`'s closure body: one call computes
`x = Math.sin(localSeed++) * 10000` and returns `x - Math.floor(x)`,
paired with the updated counter. -/
noncomputable def seedRandomStep (localSeed : ℤ) : ℝ × ℤ :=
  (Real.sin localSeed * 10000 - ↑⌊Real.sin localSeed * 10000⌋, localSeed + 1)

/-- The n-th call (0-indexed) of the closure returned by `seedRandom(seed)`:
value drawn and counter state after the call.  The counter starts at the
seed and is incremented by one per draw. -/
noncomputable def seedRandomNth (seed : ℤ) : ℕ → ℝ × ℤ
  | 0 => seedRandomStep seed
  | n + 1 => seedRandomStep (seedRandomNth seed n).2

/-- Embedding of `randomGenerator(randomSeed)`: the n-th draw of the
second-layer generator, which scales each `seedRandom` draw by 100. -/
noncomputable def randomGeneratorNth (randomSeed : ℤ) (n : ℕ) : ℝ :=
  (seedRandomNth randomSeed n).1 * 100

/-- Embedding of `TranslateDatagram`: `datagram.split("").at(-1) == "1" ? 1 : 0`.
The last character of the string decides the parity; on the empty string
`.at(-1)` is `undefined`, the comparison is false, and 0 is returned. -/
def TranslateDatagram (datagram : String) : ℤ :=
  if datagram.data.getLast? = some '1' then 1 else 0

/-- Embedding of `IFFDetectHostileEntity`:
`odds = dataFrame.reduce((acc, c) => acc + (c > 0 ? 1 : 0), 0)`,
`evens = dataFrame.length - odds`, result `Math.max(0, odds - evens) > 0`. -/
def IFFDetectHostileEntity (dataFrame : List ℤ) : Bool :=
  let odds : ℤ := dataFrame.foldl (fun acc c => acc + if 0 < c then 1 else 0) 0
  let evens : ℤ := (dataFrame.length : ℤ) - odds
  decide (0 < max 0 (odds - evens))

/-- Embedding of `CalculateMissileEngagementSuccess`:
`calculatedPoK <= successThreshold * 100`. -/
def CalculateMissileEngagementSuccess {α : Type} [LinearOrderedField α]
    (successThreshold calculatedPoK : α) : Bool :=
  decide (calculatedPoK ≤ successThreshold * 100)

/-- Embedding of JavaScript `Number.prototype.toFixed(2)` for the values the
simulator formats (draws in `[0, 100)`): round `x * 100` to the nearest
integer (ties toward the larger candidate, as ECMA-262 prescribes and as
Mathlib's `round` computes) and print with two fraction digits. -/
def toFixed2 {α : Type} [LinearOrderedField α] [FloorRing α] (x : α) : String :=
  let n : ℤ := round (x * 100)
  toString (n / 100) ++ "." ++
    (if (n % 100).natAbs < 10 then "0" else "") ++ toString (n % 100).natAbs

/-- One result record of `SimulateTimeStep`. -/
structure ResultRecord where
  radarInput : String
  hostileDetected : Bool
  missileFired : Bool
  calculatedPok : String
  engagementSuccess : Bool
deriving DecidableEq, Repr

/-- A `Simulator` instance: the kill-probability ratio and the injected or
default random source.  The JavaScript `uniformRand` closure is stateful
(one draw per call); it is modelled as the stream of its successive return
values, indexed by the number of draws already consumed. -/
structure Simulator (α : Type) where
  pkRatio : α
  uniformRand : ℕ → α

/-- The `Simulator` built by the constructor from a seed with the default
kill ratio `0.8` (written `8 / 10`): `uniformRand = randomGenerator(seed)`. -/
noncomputable def Simulator.ofSeed (randomSeed : ℤ) : Simulator ℝ :=
  ⟨8 / 10, randomGeneratorNth randomSeed⟩

/-- JavaScript's parameterless `Array.prototype.sort` orders elements by
comparing their decimal string representations (UTF-16 code units,
lexicographically).  `jsLeR a b` holds when `String(a)` does not come
strictly after `String(b)`. -/
def jsLeR (a b : ℤ) : Prop :=
  (toString a).data ≤ (toString b).data

instance : DecidableRel jsLeR :=
  fun a b => inferInstanceAs (Decidable ((toString a).data ≤ (toString b).data))

instance : IsTotal ℤ jsLeR :=
  ⟨fun a b => le_total (toString a).data (toString b).data⟩

instance : IsTrans ℤ jsLeR :=
  ⟨fun _ _ _ h1 h2 => le_trans h1 h2⟩

/-- Embedding of `timeStep.sort()` on the array of parity values: a stable
sort under the string comparison used by the default JavaScript comparator. -/
def jsSort (l : List ℤ) : List ℤ :=
  l.insertionSort jsLeR

/-- Embedding of JavaScript `String.prototype.split` with a one-character
separator, over the character list of the string.  `"".split(sep)` yields
`[""]`; separators at the ends produce empty fragments. -/
def splitChar (sep : Char) : List Char → List (List Char)
  | [] => [[]]
  | c :: cs =>
    let r := splitChar sep cs
    if c = sep then [] :: r
    else
      match r with
      | [] => [[c]]
      | h :: t => (c :: h) :: t

/-- Embedding of `SimulateTimeStep`.  The time step's datagrams are
translated to a parity frame; the source then sorts that array in place, so
both `radarInput` and the hostile-detection call observe the sorted frame.
The draw counter `idx` is threaded explicitly: it advances exactly when a
draw is consumed. -/
def SimulateTimeStep {α : Type} [LinearOrderedField α] [FloorRing α]
    (sim : Simulator α) (timeStep : List String) (idx : ℕ) : ResultRecord × ℕ :=
  let frame := jsSort (timeStep.map TranslateDatagram)
  let result : ResultRecord :=
    ⟨String.join (frame.map toString), false, false, "0.0", false⟩
  let hostile := IFFDetectHostileEntity frame
  let result := { result with hostileDetected := hostile, missileFired := hostile }
  if hostile then
    let pok := sim.uniformRand idx
    ({ result with
        calculatedPok := toFixed2 pok,
        engagementSuccess := CalculateMissileEngagementSuccess sim.pkRatio pok },
      idx + 1)
  else
    (result, idx)

/-- Processes the time steps in input order, threading the draw counter. -/
def RunAux {α : Type} [LinearOrderedField α] [FloorRing α]
    (sim : Simulator α) : List (List String) → ℕ → List ResultRecord
  | [], _ => []
  | ts :: rest, idx =>
    let r := SimulateTimeStep sim ts idx
    r.1 :: RunAux sim rest r.2

/-- Embedding of `Run`: split the raw text on `"\n"` into lines, each line
on `";"` into datagrams, and simulate the time steps in order starting from
a fresh generator state. -/
def Run {α : Type} [LinearOrderedField α] [FloorRing α]
    (sim : Simulator α) (radarData : String) : List ResultRecord :=
  let dataLines := splitChar '\n' radarData.data
  let timeSteps := dataLines.map (fun l => (splitChar ';' l).map String.mk)
  RunAux sim timeSteps 0

/-- Spec reading of `radarInput` (claim side): the parity digits sorted in
ascending numeric order and concatenated into one string. -/
def sortedAscendingParityString (frame : List ℤ) : String :=
  String.join ((frame.insertionSort (· ≤ ·)).map toString)

/-- A concrete executable simulator instance used by the witnesses. -/
def simEx : Simulator ℚ :=
  ⟨8 / 10, fun _ => 0⟩

/-- A second executable instance whose random stream is written differently
but agrees pointwise with `simEx`. -/
def simEx2 : Simulator ℚ :=
  ⟨8 / 10, fun n => 0 * (n : ℚ)⟩

/-! ## Helper lemmas -/

lemma foldl_count_eq (l : List ℤ) (init : ℤ) :
    l.foldl (fun acc c => acc + if 0 < c then 1 else 0) init
      = init + (l.countP (fun c => decide (0 < c)) : ℤ) := by
  induction l generalizing init with
  | nil => simp
  | cons x xs ih =>
    simp only [List.foldl_cons, ih, List.countP_cons]
    by_cases h : 0 < x <;> simp [h] <;> push_cast <;> ring

/-- The detector fires exactly when strictly more than half of the frame's
entries are positive. -/
lemma IFFDetectHostileEntity_eq (l : List ℤ) :
    IFFDetectHostileEntity l
      = decide (l.length < 2 * l.countP (fun c => decide (0 < c))) := by
  simp only [IFFDetectHostileEntity, foldl_count_eq, zero_add, decide_eq_decide, lt_max_iff,
    lt_self_iff_false, false_or]
  omega

/-- Hostile detection only counts entries, so it is invariant under
permutation (in particular under the in-place sort). -/
lemma IFFDetectHostileEntity_perm {l l' : List ℤ} (h : l.Perm l') :
    IFFDetectHostileEntity l = IFFDetectHostileEntity l' := by
  rw [IFFDetectHostileEntity_eq, IFFDetectHostileEntity_eq, h.countP_eq, h.length_eq]

lemma jsSort_perm (l : List ℤ) : (jsSort l).Perm l :=
  List.perm_insertionSort jsLeR l

lemma TranslateDatagram_eq_zero_or_one (d : String) :
    TranslateDatagram d = 0 ∨ TranslateDatagram d = 1 := by
  unfold TranslateDatagram
  split <;> simp

/-- On a hostile frame, the step consumes one draw and fills the record from
it. -/
lemma simulateTimeStep_of_hostile {α : Type} [LinearOrderedField α] [FloorRing α]
    (sim : Simulator α) (ts : List String) (idx : ℕ)
    (h : IFFDetectHostileEntity (ts.map TranslateDatagram) = true) :
    SimulateTimeStep sim ts idx =
      (⟨String.join ((jsSort (ts.map TranslateDatagram)).map toString), true, true,
          toFixed2 (sim.uniformRand idx),
          CalculateMissileEngagementSuccess sim.pkRatio (sim.uniformRand idx)⟩,
        idx + 1) := by
  have h' : IFFDetectHostileEntity (jsSort (ts.map TranslateDatagram)) = true :=
    (IFFDetectHostileEntity_perm (jsSort_perm _)).trans h
  simp [SimulateTimeStep, h']

/-- On a non-hostile frame, the step leaves the defaults and the draw
counter untouched. -/
lemma simulateTimeStep_of_friendly {α : Type} [LinearOrderedField α] [FloorRing α]
    (sim : Simulator α) (ts : List String) (idx : ℕ)
    (h : IFFDetectHostileEntity (ts.map TranslateDatagram) = false) :
    SimulateTimeStep sim ts idx =
      (⟨String.join ((jsSort (ts.map TranslateDatagram)).map toString), false, false,
          "0.0", false⟩,
        idx) := by
  have h' : IFFDetectHostileEntity (jsSort (ts.map TranslateDatagram)) = false :=
    (IFFDetectHostileEntity_perm (jsSort_perm _)).trans h
  simp [SimulateTimeStep, h']

/-- On lists of parity bits (only 0 and 1), the JavaScript string-comparison
sort coincides with the ascending numeric sort. -/
lemma jsSort_eq_sort_of_zero_one {l : List ℤ} (h : ∀ x ∈ l, x = 0 ∨ x = 1) :
    jsSort l = l.insertionSort (· ≤ ·) := by
  have hs1 : List.Sorted ((· ≤ ·) : ℤ → ℤ → Prop) (jsSort l) := by
    have hs : List.Sorted jsLeR (jsSort l) := List.sorted_insertionSort jsLeR l
    refine hs.imp_of_mem ?_
    intro a b ha hb hab
    have ha' := h a ((jsSort_perm l).subset ha)
    have hb' := h b ((jsSort_perm l).subset hb)
    rcases ha' with rfl | rfl <;> rcases hb' with rfl | rfl
    · exact le_refl _
    · norm_num
    · exact absurd hab (by decide)
    · exact le_refl _
  have hs2 : List.Sorted ((· ≤ ·) : ℤ → ℤ → Prop) (l.insertionSort (· ≤ ·)) :=
    List.sorted_insertionSort _ l
  exact List.eq_of_perm_of_sorted
    ((jsSort_perm l).trans (List.perm_insertionSort _ l).symm) hs1 hs2

lemma simulateTimeStep_radarInput {α : Type} [LinearOrderedField α] [FloorRing α]
    (sim : Simulator α) (ts : List String) (idx : ℕ) :
    (SimulateTimeStep sim ts idx).1.radarInput
      = String.join ((jsSort (ts.map TranslateDatagram)).map toString) := by
  cases hh : IFFDetectHostileEntity (ts.map TranslateDatagram)
  · rw [simulateTimeStep_of_friendly sim ts idx hh]
  · rw [simulateTimeStep_of_hostile sim ts idx hh]

lemma seedRandomNth_snd (s : ℤ) (n : ℕ) : (seedRandomNth s n).2 = s + n + 1 := by
  induction n with
  | zero => simp [seedRandomNth, seedRandomStep]
  | succ n ih => simp [seedRandomNth, seedRandomStep, ih]; ring

lemma runAux_mem {α : Type} [LinearOrderedField α] [FloorRing α] (sim : Simulator α) :
    ∀ (steps : List (List String)) (idx : ℕ) (r : ResultRecord),
      r ∈ RunAux sim steps idx → ∃ ts i, r = (SimulateTimeStep sim ts i).1 := by
  intro steps
  induction steps with
  | nil =>
    intro idx r hr
    simp [RunAux] at hr
  | cons ts rest ih =>
    intro idx r hr
    simp only [RunAux, List.mem_cons] at hr
    rcases hr with hr | hr
    · exact ⟨ts, idx, hr⟩
    · exact ih _ r hr

lemma simulateTimeStep_congr {α : Type} [LinearOrderedField α] [FloorRing α]
    (sim1 sim2 : Simulator α) (hpk : sim1.pkRatio = sim2.pkRatio)
    (hrand : ∀ n, sim1.uniformRand n = sim2.uniformRand n)
    (ts : List String) (idx : ℕ) :
    SimulateTimeStep sim1 ts idx = SimulateTimeStep sim2 ts idx := by
  cases hh : IFFDetectHostileEntity (ts.map TranslateDatagram)
  · rw [simulateTimeStep_of_friendly sim1 ts idx hh,
      simulateTimeStep_of_friendly sim2 ts idx hh]
  · rw [simulateTimeStep_of_hostile sim1 ts idx hh,
      simulateTimeStep_of_hostile sim2 ts idx hh, hpk, hrand idx]

lemma runAux_congr {α : Type} [LinearOrderedField α] [FloorRing α]
    (sim1 sim2 : Simulator α) (hpk : sim1.pkRatio = sim2.pkRatio)
    (hrand : ∀ n, sim1.uniformRand n = sim2.uniformRand n) :
    ∀ (steps : List (List String)) (idx : ℕ),
      RunAux sim1 steps idx = RunAux sim2 steps idx := by
  intro steps
  induction steps with
  | nil => intro idx; rfl
  | cons ts rest ih =>
    intro idx
    simp only [RunAux, simulateTimeStep_congr sim1 sim2 hpk hrand ts idx, ih]

/-! ## Claim theorems -/

/-- C1: For every parity frame (finite sequence of 0/1 integers),
`IFFDetectHostileEntity` returns `true` if and only if the count of entries
greater than 0 (the odds) strictly exceeds the count of the remaining
entries (evens = length minus odds); in particular a tie or an
evens-majority yields `false`.  (The proof does not even need the 0/1
restriction, which is kept to match the claim.) -/
theorem C1_hostile_iff_odds_majority (frame : List ℤ)
    (h : ∀ x ∈ frame, x = 0 ∨ x = 1) :
    IFFDetectHostileEntity frame = true ↔
      frame.length - frame.countP (fun c => decide (0 < c))
        < frame.countP (fun c => decide (0 < c)) := by
  rw [IFFDetectHostileEntity_eq]
  simp only [decide_eq_true_eq]
  omega

/-- Witness for C1 at the parity frame `[1, 0, 1]` (odds 2, evens 1). -/
theorem C1_witness :
    (∀ x ∈ ([1, 0, 1] : List ℤ), x = 0 ∨ x = 1) ∧
      (IFFDetectHostileEntity [1, 0, 1] = true ↔
        ([1, 0, 1] : List ℤ).length
            - ([1, 0, 1] : List ℤ).countP (fun c => decide (0 < c))
          < ([1, 0, 1] : List ℤ).countP (fun c => decide (0 < c))) :=
  ⟨by decide, C1_hostile_iff_odds_majority [1, 0, 1] (by decide)⟩

/-- C2: `CalculateMissileEngagementSuccess` returns `true` iff
`calculatedPoK <= successThreshold * 100`; consequently, on every hostile
time step the record's `engagementSuccess` equals the comparison of the one
draw consumed for that step against `pkRatio * 100`, and exactly one draw
is consumed. -/
theorem C2_engagement_success :
    (∀ (α : Type) [LinearOrderedField α] (thr pok : α),
      CalculateMissileEngagementSuccess thr pok = true ↔ pok ≤ thr * 100) ∧
    (∀ (sim : Simulator ℚ) (ts : List String) (idx : ℕ),
      IFFDetectHostileEntity (ts.map TranslateDatagram) = true →
        (SimulateTimeStep sim ts idx).1.engagementSuccess
            = decide (sim.uniformRand idx ≤ sim.pkRatio * 100) ∧
          (SimulateTimeStep sim ts idx).2 = idx + 1) := by
  constructor
  · intro α instα thr pok
    simp [CalculateMissileEngagementSuccess]
  · intro sim ts idx h
    rw [simulateTimeStep_of_hostile sim ts idx h]
    exact ⟨rfl, rfl⟩

/-- Witness for C2 on the hostile time step with three '1'-ending and one
'0'-ending datagrams. -/
theorem C2_witness :
    IFFDetectHostileEntity (["1", "1", "1", "0"].map TranslateDatagram) = true ∧
      ((SimulateTimeStep simEx ["1", "1", "1", "0"] 0).1.engagementSuccess
          = decide (simEx.uniformRand 0 ≤ simEx.pkRatio * 100) ∧
        (SimulateTimeStep simEx ["1", "1", "1", "0"] 0).2 = 0 + 1) :=
  ⟨by decide, C2_engagement_success.2 simEx ["1", "1", "1", "0"] 0 (by decide)⟩

/-- C3: the n-th draw (0-indexed) of the simulator's random generator is the
fractional part (value minus its floor) of `sin(seed + n) * 10000`, scaled
by 100, and every draw lies in `[0, 100)`. -/
theorem C3_random_draw_formula (s : ℤ) (n : ℕ) :
    randomGeneratorNth s n
        = (Real.sin ((s : ℝ) + (n : ℝ)) * 10000
            - ↑⌊Real.sin ((s : ℝ) + (n : ℝ)) * 10000⌋) * 100 ∧
      0 ≤ randomGeneratorNth s n ∧ randomGeneratorNth s n < 100 := by
  have hfst : (seedRandomNth s n).1
      = Real.sin ((s : ℝ) + (n : ℝ)) * 10000
          - ↑⌊Real.sin ((s : ℝ) + (n : ℝ)) * 10000⌋ := by
    cases n with
    | zero => simp [seedRandomNth, seedRandomStep]
    | succ n =>
      rw [seedRandomNth, seedRandomNth_snd]
      have harg : ((s + n + 1 : ℤ) : ℝ) = (s : ℝ) + ((n + 1 : ℕ) : ℝ) := by
        push_cast
        ring
      simp only [seedRandomStep, harg]
  have hfract : (seedRandomNth s n).1
      = Int.fract (Real.sin ((s : ℝ) + (n : ℝ)) * 10000) := hfst
  refine ⟨?_, ?_, ?_⟩
  · rw [randomGeneratorNth, hfst]
  · rw [randomGeneratorNth, hfract]
    exact mul_nonneg (Int.fract_nonneg _) (by norm_num)
  · rw [randomGeneratorNth, hfract]
    nlinarith [Int.fract_lt_one (Real.sin ((s : ℝ) + (n : ℝ)) * 10000),
      Int.fract_nonneg (Real.sin ((s : ℝ) + (n : ℝ)) * 10000)]

/-- C4 counterexample: translating the empty-string datagram does not fail
with an error — `TranslateDatagram` returns the value 0 for `""` (the
`.at(-1) == "1"` check is simply false on an empty string). -/
theorem C4_counterexample : TranslateDatagram "" = 0 := rfl

/-- C4 (amended): translating an empty datagram raises no error; every
datagram with no characters translates to parity 0, so the time step
`[""]` produced by an empty input line is processed normally (validation is
deliberately out of scope in the source, per its README disclaimer). -/
theorem C4_empty_datagram_translates_to_zero (d : String) (h : d.data = []) :
    TranslateDatagram d = 0 := by
  unfold TranslateDatagram
  rw [h]
  rfl

/-- Witness for C4 (amended) at the empty string. -/
theorem C4_witness : "".data = [] ∧ TranslateDatagram "" = 0 :=
  ⟨rfl, C4_empty_datagram_translates_to_zero "" rfl⟩

/-- C5: on a time step whose parity frame is not hostile, the record keeps
`calculatedPok = "0.0"` and `engagementSuccess = false`, and the random
generator's counter is unchanged (no draw is consumed). -/
theorem C5_friendly_step (α : Type) [LinearOrderedField α] [FloorRing α]
    (sim : Simulator α) (ts : List String) (idx : ℕ)
    (h : IFFDetectHostileEntity (ts.map TranslateDatagram) = false) :
    (SimulateTimeStep sim ts idx).1.calculatedPok = "0.0" ∧
      (SimulateTimeStep sim ts idx).1.engagementSuccess = false ∧
      (SimulateTimeStep sim ts idx).2 = idx := by
  rw [simulateTimeStep_of_friendly sim ts idx h]
  exact ⟨rfl, rfl, rfl⟩

/-- Witness for C5 on the tied (non-hostile) time step `["1010", "1011"]`
with draw counter 7. -/
theorem C5_witness :
    IFFDetectHostileEntity (["1010", "1011"].map TranslateDatagram) = false ∧
      ((SimulateTimeStep simEx ["1010", "1011"] 7).1.calculatedPok = "0.0" ∧
        (SimulateTimeStep simEx ["1010", "1011"] 7).1.engagementSuccess = false ∧
        (SimulateTimeStep simEx ["1010", "1011"] 7).2 = 7) :=
  ⟨by decide, C5_friendly_step ℚ simEx ["1010", "1011"] 7 (by decide)⟩

/-- C6: in every record produced by `SimulateTimeStep`, and hence in every
element of the sequence returned by `Run`, `missileFired` equals
`hostileDetected`. -/
theorem C6_missile_fired_eq_hostile :
    (∀ (α : Type) [LinearOrderedField α] [FloorRing α]
        (sim : Simulator α) (ts : List String) (idx : ℕ),
      (SimulateTimeStep sim ts idx).1.missileFired
        = (SimulateTimeStep sim ts idx).1.hostileDetected) ∧
    (∀ (α : Type) [LinearOrderedField α] [FloorRing α]
        (sim : Simulator α) (radarData : String),
      ∀ r ∈ Run sim radarData, r.missileFired = r.hostileDetected) := by
  have key : ∀ (α : Type) [LinearOrderedField α] [FloorRing α]
      (sim : Simulator α) (ts : List String) (idx : ℕ),
      (SimulateTimeStep sim ts idx).1.missileFired
        = (SimulateTimeStep sim ts idx).1.hostileDetected := by
    intro α instα instβ sim ts idx
    cases hh : IFFDetectHostileEntity (ts.map TranslateDatagram)
    · rw [simulateTimeStep_of_friendly sim ts idx hh]
    · rw [simulateTimeStep_of_hostile sim ts idx hh]
  refine ⟨key, ?_⟩
  intro α instα instβ sim radarData r hr
  simp only [Run] at hr
  obtain ⟨ts, i, rfl⟩ := runAux_mem sim _ _ r hr
  exact key α sim ts i

/-- Witness for C6 on the record produced by `Run` on the empty input. -/
theorem C6_witness :
    (⟨"0", false, false, "0.0", false⟩ : ResultRecord) ∈ Run simEx "" ∧
      (⟨"0", false, false, "0.0", false⟩ : ResultRecord).missileFired
        = (⟨"0", false, false, "0.0", false⟩ : ResultRecord).hostileDetected :=
  ⟨by decide, C6_missile_fired_eq_hostile.2 ℚ simEx "" _ (by decide)⟩

/-- C7: the record's `radarInput` equals the step's parity digits sorted in
ascending order and concatenated into a string.  The source sorts with the
default JavaScript comparator (decimal-string comparison); on 0/1 parity
frames this coincides with the ascending numeric sort demanded by the
spec. -/
theorem C7_radar_input_sorted_ascending (α : Type) [LinearOrderedField α] [FloorRing α]
    (sim : Simulator α) (ts : List String) (idx : ℕ) :
    (SimulateTimeStep sim ts idx).1.radarInput
      = sortedAscendingParityString (ts.map TranslateDatagram) := by
  rw [simulateTimeStep_radarInput]
  unfold sortedAscendingParityString
  rw [jsSort_eq_sort_of_zero_one]
  intro x hx
  rcases List.mem_map.mp hx with ⟨d, _, rfl⟩
  exact TranslateDatagram_eq_zero_or_one d

example : sortedAscendingParityString [1, 0, 1] = "011" := rfl

/-- C8: the computation is deterministic given the configuration: two
simulator instances whose kill ratios are equal and whose random sources
agree draw-for-draw produce identical record sequences on every input.  In
this pure embedding a `Simulator` value is determined by its configuration,
so this subsumes two instances constructed from the same seed with the
default ratio (`Simulator.ofSeed`). -/
theorem C8_run_deterministic (α : Type) [LinearOrderedField α] [FloorRing α]
    (sim1 sim2 : Simulator α) (hpk : sim1.pkRatio = sim2.pkRatio)
    (hrand : ∀ n, sim1.uniformRand n = sim2.uniformRand n)
    (radarData : String) :
    Run sim1 radarData = Run sim2 radarData := by
  simp only [Run]
  exact runAux_congr sim1 sim2 hpk hrand _ 0

/-- Witness for C8: two instances with syntactically different but pointwise
equal random streams agree on an input with a hostile step. -/
theorem C8_witness : Run simEx "1;1\n0" = Run simEx2 "1;1\n0" :=
  C8_run_deterministic ℚ simEx simEx2 rfl (fun n => (zero_mul (n : ℚ)).symm) "1;1\n0"

/-- C9: with seed 1000 and ratio 0.8, the single input line `"1010;1011"`
produces exactly one record `{radarInput := "01", hostileDetected := false,
missileFired := false, calculatedPok := "0.0", engagementSuccess := false}`:
the datagrams translate to the parity frame `[0, 1]`, and with odds = 1 and
evens = 1 no hostile is detected.  The same holds for every injected random
source with ratio 0.8, since no draw is consumed. -/
theorem C9_scenario_seed1000 :
    Run (Simulator.ofSeed 1000) "1010;1011"
        = [⟨"01", false, false, "0.0", false⟩] ∧
      ∀ rand : ℕ → ℚ,
        Run (⟨8 / 10, rand⟩ : Simulator ℚ) "1010;1011"
          = [⟨"01", false, false, "0.0", false⟩] := by
  constructor
  · rfl
  · intro rand
    rfl

/-- C10: `Run` on the empty string returns exactly one record: splitting
`""` yields one line holding the single empty datagram, which translates to
parity 0 without any error. -/
theorem C10_run_empty_string (α : Type) [LinearOrderedField α] [FloorRing α]
    (sim : Simulator α) :
    Run sim "" = [⟨"0", false, false, "0.0", false⟩] := rfl
